import Mathlib

/-!
Shallow embedding of the session-ledger and timer-guard core of
`easy_apply_agent.py` (class `LinkedInBotController` and the final-report
writer of `LinkedInEasyApplyBot`).

Modelling conventions:
* time instants are natural numbers of microseconds (Python `datetime` has
  microsecond resolution); `datetime.now()` becomes an explicit `now`
  argument threaded into each operation;
* the JSON file write inside `log_application_attempt` is the one fallible
  statement of its `try` block, so the write outcome is an explicit boolean
  argument (`writeOk`); the `except` branch returns the error `ActionResult`
  after the in-memory mutations have already happened, exactly as in the
  source;
* Python float formatting `"{x:.0f}"` / `"{x:.1f}"` is modelled at exact
  rational precision by round-half-to-even (`roundHalfEvenDiv`);
* `str(timedelta).split(".")[0]` is modelled by `formatDuration` on the
  nonnegative microsecond count.
-/

/-- Model of `browser_use.ActionResult` restricted to the two fields this
code sets: `extracted_content` and the optional `error` string. -/
structure ActionResult where
  extracted_content : String
  error : Option String := none
deriving Repr, DecidableEq

/-- The `ApplicationStatus` dataclass: one entry per job application attempt. -/
structure ApplicationStatus where
  job_title : String
  company : String
  job_url : String
  application_time : Nat
  status : String
  reason : String
  easy_apply : Bool
  form_fields_filled : List String
  errors : List String
deriving Repr, DecidableEq

/-- The `stats` dictionary inside `session_data`. -/
structure SessionStats where
  total_jobs_checked : Nat
  easy_apply_found : Nat
  applications_submitted : Nat
  applications_failed : Nat
  jobs_skipped : Nat
deriving Repr, DecidableEq

/-- The `session_data` dictionary: start time, application records, stats. -/
structure SessionData where
  start_time : Nat
  applications : List ApplicationStatus
  stats : SessionStats
deriving Repr, DecidableEq

/-- The zeroed stats dictionary built in `LinkedInBotController.__init__`. -/
def initStats : SessionStats :=
  { total_jobs_checked := 0
    easy_apply_found := 0
    applications_submitted := 0
    applications_failed := 0
    jobs_skipped := 0 }

/-- `session_data` as initialised in `__init__`: current instant as start
time, no applications, zeroed stats. -/
def initSession (t : Nat) : SessionData :=
  { start_time := t, applications := [], stats := initStats }

/-- Python `str.split(sep)` on a list of characters: splitting the empty
string yields one empty field, and each occurrence of the separator starts a
new field. -/
def pySplitOn (sep : Char) : List Char → List (List Char)
  | [] => [[]]
  | c :: rest =>
    if c = sep then [] :: pySplitOn sep rest
    else
      match pySplitOn sep rest with
      | [] => [[c]]
      | h :: t => (c :: h) :: t

/-- The expression `x.split(",") if x else []` used for `form_fields` and
`errors` in `log_application_attempt`: the empty string (falsy in Python)
gives the empty list, anything else is comma-split. -/
def splitFields (s : String) : List String :=
  if s = "" then [] else (pySplitOn ',' s.data).map List.asString

/-- Construction of the `ApplicationStatus` record inside
`log_application_attempt`, with `datetime.now()` passed in as `now`. -/
def mkRecord (job_title company job_url : String) (now : Nat)
    (status reason : String) (easy_apply : Bool)
    (form_fields errorsArg : String) : ApplicationStatus :=
  { job_title := job_title
    company := company
    job_url := job_url
    application_time := now
    status := status
    reason := reason
    easy_apply := easy_apply
    form_fields_filled := splitFields form_fields
    errors := splitFields errorsArg }

/-- The stats update block of `log_application_attempt`: unconditionally
increment `total_jobs_checked`, increment `easy_apply_found` when the flag is
set, then the `if/elif/elif` chain on `status`. -/
def updateStats (st : SessionStats) (status : String) (easy_apply : Bool) :
    SessionStats :=
  let st1 := { st with total_jobs_checked := st.total_jobs_checked + 1 }
  let st2 :=
    if easy_apply then
      { st1 with easy_apply_found := st1.easy_apply_found + 1 }
    else st1
  if status = "success" then
    { st2 with applications_submitted := st2.applications_submitted + 1 }
  else if status = "failed" then
    { st2 with applications_failed := st2.applications_failed + 1 }
  else if status = "skipped" then
    { st2 with jobs_skipped := st2.jobs_skipped + 1 }
  else st2

/-- The `log_application_attempt` action. The record is built and appended
and the stats are updated first; then the JSON snapshot write happens, the
only fallible statement of the `try` block (modelled by `writeOk`). On
success the confirmation `ActionResult` is returned; on a write failure the
`except` branch returns an error `ActionResult`, but the in-memory mutations
are not rolled back. -/
def log_application_attempt (s : SessionData) (now : Nat)
    (job_title company job_url status reason : String) (easy_apply : Bool)
    (form_fields errorsArg : String) (writeOk : Bool) :
    SessionData × ActionResult :=
  let record := mkRecord job_title company job_url now status reason
    easy_apply form_fields errorsArg
  let s1 : SessionData :=
    { s with applications := s.applications ++ [record]
             stats := updateStats s.stats status easy_apply }
  if writeOk then
    (s1, { extracted_content :=
             "Application logged: " ++ status ++ " - " ++ job_title ++
               " at " ++ company })
  else
    (s1, { extracted_content := ""
           error := some "Failed to log application" })

/-- One input tuple for `log_application_attempt`, used to talk about
sequences of calls. -/
structure LogInput where
  job_title : String
  company : String
  job_url : String
  status : String
  reason : String
  easy_apply : Bool
  form_fields : String
  errorsArg : String
  now : Nat
  writeOk : Bool
deriving Repr, DecidableEq

/-- State transition of one `log_application_attempt` call. -/
def runLog (s : SessionData) (i : LogInput) : SessionData :=
  (log_application_attempt s i.now i.job_title i.company i.job_url i.status
    i.reason i.easy_apply i.form_fields i.errorsArg i.writeOk).1

/-- State after a sequence of `log_application_attempt` calls. -/
def runLogs (s : SessionData) (l : List LogInput) : SessionData :=
  l.foldl runLog s

/-- Round `n / d` to the nearest integer, ties to even: the exact-rational
model of Python `"{x:.0f}"` formatting of the nonnegative value `n / d`. -/
def roundHalfEvenDiv (n d : Nat) : Nat :=
  let q := n / d
  let r := n % d
  if 2 * r < d then q
  else if d < 2 * r then q + 1
  else if q % 2 = 0 then q else q + 1

/-- `start_user_intervention_timer`: store the current instant as the
armed-since time and return the confirmation. -/
def start_user_intervention_timer (timer : Option Nat) (now : Nat) :
    Option Nat × ActionResult :=
  let _ := timer
  (some now,
   { extracted_content := "Timer started - 2 minutes for user intervention" })

/-- `check_user_intervention_timeout`: no timer means no message; otherwise
exceeded when elapsed is strictly over 2 minutes, else the remaining seconds
(`120 - elapsed.total_seconds()` formatted with `"{:.0f}"`). -/
def check_user_intervention_timeout (timer : Option Nat) (now : Nat) :
    ActionResult :=
  match timer with
  | none => { extracted_content := "No intervention timer active" }
  | some start =>
    let elapsed := now - start
    if 120000000 < elapsed then
      { extracted_content := "TIMEOUT_EXCEEDED" }
    else
      { extracted_content :=
          "Timer active - " ++
            toString (roundHalfEvenDiv (120000000 - elapsed) 1000000) ++
            " seconds remaining" }

/-- `reset_user_intervention_timer`: clear the armed-since time from any
state. -/
def reset_user_intervention_timer (timer : Option Nat) :
    Option Nat × ActionResult :=
  let _ := timer
  (none, { extracted_content := "Timer reset - intervention completed" })

/-- `check_application_time_limit`: `none` models a start-time string that
`datetime.fromisoformat` rejects (the `except` branch); otherwise exceeded
when elapsed is strictly over 5 minutes, else the remaining seconds
(`300 - elapsed.total_seconds()` formatted with `"{:.0f}"`). -/
def check_application_time_limit (startTime : Option Nat) (now : Nat) :
    ActionResult :=
  match startTime with
  | none =>
    { extracted_content := ""
      error := some "Error checking time limit: invalid isoformat string" }
  | some start =>
    let elapsed := now - start
    if 300000000 < elapsed then
      { extracted_content := "TIME_LIMIT_EXCEEDED" }
    else
      { extracted_content :=
          "Time remaining: " ++
            toString (roundHalfEvenDiv (300000000 - elapsed) 1000000) ++
            " seconds" }

/-- Zero-pad a natural number to two digits, as in Python `timedelta`
rendering of minutes and seconds. -/
def pad2 (n : Nat) : String :=
  if n < 10 then "0" ++ toString n else toString n

/-- `str(timedelta).split(".")[0]` for a nonnegative duration given in
microseconds: sub-second precision is truncated, then rendered as
`H:MM:SS`, preceded by a day count when at least one day long. -/
def formatDuration (us : Nat) : String :=
  let totalSecs := us / 1000000
  let days := totalSecs / 86400
  let rem := totalSecs % 86400
  let hms := toString (rem / 3600) ++ ":" ++ pad2 (rem % 3600 / 60) ++ ":" ++
    pad2 (rem % 60)
  if days = 0 then hms
  else if days = 1 then "1 day, " ++ hms
  else toString days ++ " days, " ++ hms

/-- The exact-rational model of the `"{x:.1f}%"` rate formatting in
`get_session_stats`, applied to the percentage `num / den * 100`. -/
def fmtRate1 (num den : Nat) : String :=
  let tenths := roundHalfEvenDiv (num * 1000) den
  toString (tenths / 10) ++ "." ++ toString (tenths % 10) ++ "%"

/-- The summary dictionary built by `get_session_stats`. -/
structure SessionSummary where
  session_duration : String
  statistics : SessionStats
  success_rate : String
  easy_apply_rate : String
deriving Repr, DecidableEq

/-- `get_session_stats`: reads `session_data`, computes the elapsed session
duration from `datetime.now()`, and the two percentage strings with the
`max(total, 1)` divisor guard. It mutates nothing, which the model expresses
by returning the session state alongside the summary. -/
def get_session_stats (s : SessionData) (now : Nat) :
    SessionSummary × SessionData :=
  ({ session_duration := formatDuration (now - s.start_time)
     statistics := s.stats
     success_rate := fmtRate1 s.stats.applications_submitted
       (max s.stats.total_jobs_checked 1)
     easy_apply_rate := fmtRate1 s.stats.easy_apply_found
       (max s.stats.total_jobs_checked 1) }, s)

/-- Path of the live snapshot written by every `log_application_attempt`
call, relative to the session directory. -/
def applications_log_path : String := "data/applications_log.json"

/-- Path of the final report written by `_save_final_report`, relative to
the session directory. -/
def final_report_path : String := "data/final_report.json"

/-- The final report document built by `_save_final_report`. -/
structure FinalReport where
  session_summary : SessionData
  end_time : Nat
  total_runtime : String
deriving Repr, DecidableEq

/-- `_save_final_report`: builds the report from the full `session_data`,
the current instant, and `str(now - start).split(".")[0]`, and writes it to
`final_report_path`. The model returns the target path and the document. -/
def save_final_report (s : SessionData) (now : Nat) : String × FinalReport :=
  (final_report_path,
   { session_summary := s
     end_time := now
     total_runtime := formatDuration (now - s.start_time) })

/-! ### Helper lemmas -/

/-- Both branches of the write outcome leave the same in-memory state:
the record is appended and the stats updated before the file write. -/
lemma log_attempt_fst (s : SessionData) (now : Nat)
    (jt c u st r : String) (e : Bool) (ff er : String) (w : Bool) :
    (log_application_attempt s now jt c u st r e ff er w).1 =
      { s with applications := s.applications ++ [mkRecord jt c u now st r e ff er]
               stats := updateStats s.stats st e } := by
  cases w <;> rfl

/-- `updateStats` always increments the total by one. -/
lemma updateStats_total (st : SessionStats) (status : String) (e : Bool) :
    (updateStats st status e).total_jobs_checked = st.total_jobs_checked + 1 := by
  unfold updateStats
  split_ifs <;> rfl

/-- `updateStats` increments the easy-apply counter exactly when the flag is
set. -/
lemma updateStats_easy (st : SessionStats) (status : String) (e : Bool) :
    (updateStats st status e).easy_apply_found
      = st.easy_apply_found + (if e then 1 else 0) := by
  unfold updateStats
  split_ifs <;> rfl

/-- `updateStats` increments the submitted counter exactly on status
`"success"`. -/
lemma updateStats_submitted (st : SessionStats) (status : String) (e : Bool) :
    (updateStats st status e).applications_submitted
      = st.applications_submitted + (if status = "success" then 1 else 0) := by
  unfold updateStats
  split_ifs <;> rfl

/-- `updateStats` increments the failed counter exactly on status
`"failed"`. -/
lemma updateStats_failed (st : SessionStats) (status : String) (e : Bool) :
    (updateStats st status e).applications_failed
      = st.applications_failed + (if status = "failed" then 1 else 0) := by
  unfold updateStats
  split_ifs <;> simp_all

/-- `updateStats` increments the skipped counter exactly on status
`"skipped"`. -/
lemma updateStats_skipped (st : SessionStats) (status : String) (e : Bool) :
    (updateStats st status e).jobs_skipped
      = st.jobs_skipped + (if status = "skipped" then 1 else 0) := by
  unfold updateStats
  split_ifs <;> simp_all

/-- A valid status adds exactly one to the sum of the three status
counters. -/
lemma updateStats_sum_valid (st : SessionStats) (status : String) (e : Bool)
    (h : status = "success" ∨ status = "failed" ∨ status = "skipped") :
    (updateStats st status e).applications_submitted
      + (updateStats st status e).applications_failed
      + (updateStats st status e).jobs_skipped
    = st.applications_submitted + st.applications_failed + st.jobs_skipped
        + 1 := by
  rw [updateStats_submitted, updateStats_failed, updateStats_skipped]
  rcases h with h | h | h <;> subst h <;> simp <;> omega

/-- The stats after one `runLog` step are the `updateStats` of the previous
stats. -/
lemma runLog_stats (s : SessionData) (i : LogInput) :
    (runLog s i).stats = updateStats s.stats i.status i.easy_apply := by
  rw [runLog, log_attempt_fst]

/-- After a sequence of calls whose statuses are all valid, the total and
the sum of the three status counters both grow by the length of the
sequence. -/
lemma runLogs_counts (l : List LogInput) :
    ∀ s : SessionData,
      (∀ i ∈ l, i.status = "success" ∨ i.status = "failed" ∨
        i.status = "skipped") →
      (runLogs s l).stats.total_jobs_checked
          = s.stats.total_jobs_checked + l.length
        ∧ (runLogs s l).stats.applications_submitted
            + (runLogs s l).stats.applications_failed
            + (runLogs s l).stats.jobs_skipped
          = s.stats.applications_submitted + s.stats.applications_failed
              + s.stats.jobs_skipped + l.length := by
  induction l with
  | nil => intro s _; simp [runLogs]
  | cons i l ih =>
    intro s h
    have hi := h i (List.mem_cons_self i l)
    have hrest : ∀ j ∈ l, j.status = "success" ∨ j.status = "failed" ∨
        j.status = "skipped" := fun j hj => h j (List.mem_cons_of_mem i hj)
    have hstep : runLogs s (i :: l) = runLogs (runLog s i) l := rfl
    obtain ⟨h1, h2⟩ := ih (runLog s i) hrest
    rw [hstep]
    constructor
    · rw [h1, runLog_stats, updateStats_total]
      simp
      omega
    · rw [h2, runLog_stats, updateStats_sum_valid s.stats i.status
        i.easy_apply hi]
      simp
      omega

/-- Splitting on a separator yields one more field than the number of
separator occurrences. -/
lemma pySplitOn_length (sep : Char) (l : List Char) :
    (pySplitOn sep l).length = l.count sep + 1 := by
  induction l with
  | nil => rfl
  | cons c rest ih =>
    by_cases hc : c = sep
    · subst hc
      simp [pySplitOn, List.count_cons, ih]
    · cases hrec : pySplitOn sep rest with
      | nil => rw [hrec] at ih; simp at ih
      | cons h t =>
        rw [hrec] at ih
        simp only [pySplitOn, if_neg hc, hrec, List.length_cons] at ih ⊢
        rw [List.count_cons]
        simp [hc, Ne.symm hc] at ih ⊢
        omega

/-- `formatDuration` depends only on the whole-second part of its input:
sub-second precision is truncated. -/
lemma formatDuration_congr (a b : Nat) (h : a / 1000000 = b / 1000000) :
    formatDuration a = formatDuration b := by
  simp only [formatDuration, h]

/-- Round a rational to the nearest integer, ties to even: the reference
description of Python `"{x:.0f}"` formatting. -/
def roundHalfEvenQ (q : ℚ) : ℤ :=
  if Int.fract q < 1 / 2 then ⌊q⌋
  else if 1 / 2 < Int.fract q then ⌊q⌋ + 1
  else if ⌊q⌋ % 2 = 0 then ⌊q⌋ else ⌊q⌋ + 1

/-- Spec-side rendering of a nonnegative percentage with one decimal digit
and a percent sign, rounding ties to even. -/
def fmtPctQ (q : ℚ) : String :=
  let tenths := (roundHalfEvenQ (q * 10)).toNat
  toString (tenths / 10) ++ "." ++ toString (tenths % 10) ++ "%"

/-- Decomposition of a quotient of naturals over ℚ into its natural
quotient and remainder parts. -/
lemma natCast_div_decomp (n d : ℕ) (hd : 0 < d) :
    (n : ℚ) / (d : ℚ) = ((n / d : ℕ) : ℚ) + ((n % d : ℕ) : ℚ) / (d : ℚ) := by
  have hd0 : ((d : ℚ)) ≠ 0 := by
    have h : (0 : ℚ) < (d : ℚ) := by exact_mod_cast hd
    exact h.ne'
  have hmod : (d : ℚ) * ((n / d : ℕ) : ℚ) + ((n % d : ℕ) : ℚ) = (n : ℚ) := by
    exact_mod_cast Nat.div_add_mod n d
  field_simp
  linarith

/-- Floor of a quotient of naturals over ℚ is natural division. -/
lemma floor_natCast_div (n d : ℕ) (hd : 0 < d) :
    ⌊(n : ℚ) / (d : ℚ)⌋ = (n / d : ℕ) := by
  have hd0 : (0 : ℚ) < (d : ℚ) := by exact_mod_cast hd
  have hfr : ((n % d : ℕ) : ℚ) / (d : ℚ) ∈ Set.Ico (0 : ℚ) 1 := by
    constructor
    · positivity
    · rw [div_lt_one hd0]
      exact_mod_cast Nat.mod_lt n hd
  rw [natCast_div_decomp n d hd, add_comm, Int.floor_add_nat,
    Int.floor_eq_zero_iff.mpr hfr]
  simp

/-- Fractional part of a quotient of naturals over ℚ is the remainder over
the divisor. -/
lemma fract_natCast_div (n d : ℕ) (hd : 0 < d) :
    Int.fract ((n : ℚ) / (d : ℚ)) = ((n % d : ℕ) : ℚ) / (d : ℚ) := by
  rw [Int.fract, floor_natCast_div n d hd]
  simp only [Int.cast_natCast]
  rw [natCast_div_decomp n d hd]
  ring

/-- The executable round-half-even natural division agrees with the
rational round-half-even of the true quotient. -/
lemma roundHalfEvenQ_natDiv (n d : ℕ) (hd : 0 < d) :
    roundHalfEvenQ ((n : ℚ) / (d : ℚ)) = (roundHalfEvenDiv n d : ℤ) := by
  have hd0 : (0 : ℚ) < (d : ℚ) := by exact_mod_cast hd
  have e1 : (Int.fract ((n : ℚ) / d) < 1 / 2) ↔ 2 * (n % d) < d := by
    rw [fract_natCast_div n d hd, div_lt_div_iff₀ hd0 two_pos]
    rw [show ((n % d : ℕ) : ℚ) * 2 = ((2 * (n % d) : ℕ) : ℚ) by push_cast; ring]
    rw [show (1 : ℚ) * (d : ℚ) = ((d : ℕ) : ℚ) by ring]
    exact Nat.cast_lt
  have e2 : ((1 : ℚ) / 2 < Int.fract ((n : ℚ) / d)) ↔ d < 2 * (n % d) := by
    rw [fract_natCast_div n d hd, div_lt_div_iff₀ two_pos hd0]
    rw [show ((n % d : ℕ) : ℚ) * 2 = ((2 * (n % d) : ℕ) : ℚ) by push_cast; ring]
    rw [show (1 : ℚ) * (d : ℚ) = ((d : ℕ) : ℚ) by ring]
    exact Nat.cast_lt
  simp only [roundHalfEvenQ, roundHalfEvenDiv, floor_natCast_div n d hd]
  have e3 : (((n / d : ℕ) : ℤ) % 2 = 0) ↔ ((n / d) % 2 = 0) := by omega
  simp only [e1, e2, e3]
  split_ifs <;> push_cast <;> ring

/-- The rate string computed by `get_session_stats` is the round-half-even
one-decimal rendering of the exact rational percentage. -/
lemma fmtRate1_eq_fmtPctQ (num den : ℕ) (hd : 0 < den) :
    fmtRate1 num den = fmtPctQ ((num : ℚ) / (den : ℚ) * 100) := by
  have harg : ((num : ℚ) / den * 100) * 10 = ((num * 1000 : ℕ) : ℚ) / den := by
    push_cast
    ring
  rw [fmtRate1, fmtPctQ]
  rw [harg, roundHalfEvenQ_natDiv _ _ hd, Int.toNat_natCast]

/-- The armed-and-counting intervention message is never the timeout
message. -/
lemma timer_active_message_ne (n : Nat) :
    "Timer active - " ++ toString n ++ " seconds remaining"
      ≠ "TIMEOUT_EXCEEDED" := by
  intro h
  have hlen := congrArg String.length h
  have l1 : ("Timer active - " : String).length = 15 := rfl
  have l2 : (" seconds remaining" : String).length = 18 := rfl
  have l3 : ("TIMEOUT_EXCEEDED" : String).length = 16 := rfl
  simp only [String.length_append, l1, l2, l3] at hlen
  omega

/-- The time-remaining message of the application guard is never the
exceeded message. -/
lemma time_remaining_message_ne (n : Nat) :
    "Time remaining: " ++ toString n ++ " seconds"
      ≠ "TIME_LIMIT_EXCEEDED" := by
  intro h
  have hlen := congrArg String.length h
  have l1 : ("Time remaining: " : String).length = 16 := rfl
  have l2 : (" seconds" : String).length = 8 := rfl
  have l3 : ("TIME_LIMIT_EXCEEDED" : String).length = 19 := rfl
  simp only [String.length_append, l1, l2, l3] at hlen
  omega

/-! ### Claims -/

/-- A `log_application_attempt` call whose status is none of the three enum
values, used to refute the unrestricted invariant of C1. -/
def unknownStatusInput : LogInput :=
  { job_title := "T", company := "C", job_url := "U", status := "pending",
    reason := "", easy_apply := false, form_fields := "", errorsArg := "",
    now := 0, writeOk := true }

/-- C1 counterexample: after a single `log_application_attempt` call with
status `"pending"`, `total_jobs_checked` is 1 but
`submitted + failed + skipped` is 0, so the invariant claimed for every
sequence of calls fails. -/
theorem c1_invariant_fails_on_unknown_status :
    ¬ ((runLogs (initSession 0) [unknownStatusInput]).stats.total_jobs_checked
      = (runLogs (initSession 0)
            [unknownStatusInput]).stats.applications_submitted
        + (runLogs (initSession 0)
            [unknownStatusInput]).stats.applications_failed
        + (runLogs (initSession 0) [unknownStatusInput]).stats.jobs_skipped) := by
  decide

/-- C1 (amended): for every sequence of N `log_application_attempt` calls
whose statuses are all among `"success"`, `"failed"`, `"skipped"`, after the
N-th call `total_jobs_checked` equals N and
`submitted + failed + skipped` equals N. -/
theorem c1_total_and_sum_after_valid_calls (l : List LogInput) (t : Nat)
    (h : ∀ i ∈ l, i.status = "success" ∨ i.status = "failed" ∨
      i.status = "skipped") :
    (runLogs (initSession t) l).stats.total_jobs_checked = l.length
      ∧ (runLogs (initSession t) l).stats.applications_submitted
          + (runLogs (initSession t) l).stats.applications_failed
          + (runLogs (initSession t) l).stats.jobs_skipped = l.length := by
  obtain ⟨h1, h2⟩ := runLogs_counts l (initSession t) h
  refine ⟨?_, ?_⟩
  · rw [h1]
    simp [initSession, initStats]
  · rw [h2]
    simp [initSession, initStats]

/-- C1 witness: the amended statement evaluated on a concrete two-call
sequence with statuses `"success"` and `"skipped"`. -/
theorem c1_total_and_sum_after_valid_calls_witness :
    (runLogs (initSession 0)
        [{ job_title := "A", company := "B", job_url := "l1",
           status := "success", reason := "", easy_apply := true,
           form_fields := "name,email", errorsArg := "", now := 3,
           writeOk := true },
         { job_title := "D", company := "E", job_url := "l2",
           status := "skipped", reason := "not_easy_apply",
           easy_apply := false, form_fields := "", errorsArg := "", now := 9,
           writeOk := true }]).stats.total_jobs_checked = 2
      ∧ (runLogs (initSession 0)
          [{ job_title := "A", company := "B", job_url := "l1",
             status := "success", reason := "", easy_apply := true,
             form_fields := "name,email", errorsArg := "", now := 3,
             writeOk := true },
           { job_title := "D", company := "E", job_url := "l2",
             status := "skipped", reason := "not_easy_apply",
             easy_apply := false, form_fields := "", errorsArg := "", now := 9,
             writeOk := true }]).stats.applications_submitted
        + (runLogs (initSession 0)
            [{ job_title := "A", company := "B", job_url := "l1",
               status := "success", reason := "", easy_apply := true,
               form_fields := "name,email", errorsArg := "", now := 3,
               writeOk := true },
             { job_title := "D", company := "E", job_url := "l2",
               status := "skipped", reason := "not_easy_apply",
               easy_apply := false, form_fields := "", errorsArg := "",
               now := 9, writeOk := true }]).stats.applications_failed
        + (runLogs (initSession 0)
            [{ job_title := "A", company := "B", job_url := "l1",
               status := "success", reason := "", easy_apply := true,
               form_fields := "name,email", errorsArg := "", now := 3,
               writeOk := true },
             { job_title := "D", company := "E", job_url := "l2",
               status := "skipped", reason := "not_easy_apply",
               easy_apply := false, form_fields := "", errorsArg := "",
               now := 9, writeOk := true }]).stats.jobs_skipped = 2 :=
  c1_total_and_sum_after_valid_calls
    [{ job_title := "A", company := "B", job_url := "l1",
       status := "success", reason := "", easy_apply := true,
       form_fields := "name,email", errorsArg := "", now := 3,
       writeOk := true },
     { job_title := "D", company := "E", job_url := "l2",
       status := "skipped", reason := "not_easy_apply", easy_apply := false,
       form_fields := "", errorsArg := "", now := 9, writeOk := true }] 0
    (by decide)

/-- C2: one `log_application_attempt` call increments `total_jobs_checked`
by exactly 1, increments `easy_apply_found` by 1 iff the flag is set, and
increments exactly the status counter matching its status, plus the two
concrete scenarios: a success/easy-apply call from the empty session gives
stats (1,1,1,0,0), and a skipped/non-easy-apply call gives (1,0,0,0,1). -/
theorem c2_single_call_stat_deltas (s : SessionData) (now : Nat)
    (jt c u st r ff er : String) (e w : Bool) :
    ((log_application_attempt s now jt c u st r e ff er w).1.stats.total_jobs_checked
        = s.stats.total_jobs_checked + 1
      ∧ (log_application_attempt s now jt c u st r e ff er w).1.stats.easy_apply_found
        = s.stats.easy_apply_found + (if e then 1 else 0)
      ∧ (log_application_attempt s now jt c u st r e ff er w).1.stats.applications_submitted
        = s.stats.applications_submitted + (if st = "success" then 1 else 0)
      ∧ (log_application_attempt s now jt c u st r e ff er w).1.stats.applications_failed
        = s.stats.applications_failed + (if st = "failed" then 1 else 0)
      ∧ (log_application_attempt s now jt c u st r e ff er w).1.stats.jobs_skipped
        = s.stats.jobs_skipped + (if st = "skipped" then 1 else 0))
      ∧ (runLogs (initSession 0)
          [{ job_title := "T", company := "C", job_url := "U",
             status := "success", reason := "", easy_apply := true,
             form_fields := "", errorsArg := "", now := 5,
             writeOk := true }]).stats
        = { total_jobs_checked := 1, easy_apply_found := 1,
            applications_submitted := 1, applications_failed := 0,
            jobs_skipped := 0 }
      ∧ (runLogs (initSession 0)
          [{ job_title := "T", company := "C", job_url := "U",
             status := "skipped", reason := "not_easy_apply",
             easy_apply := false, form_fields := "", errorsArg := "",
             now := 5, writeOk := true }]).stats
        = { total_jobs_checked := 1, easy_apply_found := 0,
            applications_submitted := 0, applications_failed := 0,
            jobs_skipped := 1 } := by
  refine ⟨⟨?_, ?_, ?_, ?_, ?_⟩, by decide, by decide⟩
  · rw [log_attempt_fst]
    exact updateStats_total s.stats st e
  · rw [log_attempt_fst]
    exact updateStats_easy s.stats st e
  · rw [log_attempt_fst]
    exact updateStats_submitted s.stats st e
  · rw [log_attempt_fst]
    exact updateStats_failed s.stats st e
  · rw [log_attempt_fst]
    exact updateStats_skipped s.stats st e

/-- C4: when the JSON snapshot write fails, `log_application_attempt`
returns an error result rather than raising, and the in-memory state keeps
the appended record and the updated counters — the same state the success
path produces, so memory and disk may diverge. -/
theorem c4_write_failure_keeps_memory_state (s : SessionData) (now : Nat)
    (jt c u st r ff er : String) (e : Bool) :
    (log_application_attempt s now jt c u st r e ff er false).2.error
        = some "Failed to log application"
      ∧ (log_application_attempt s now jt c u st r e ff er false).1.applications
        = s.applications ++ [mkRecord jt c u now st r e ff er]
      ∧ (log_application_attempt s now jt c u st r e ff er false).1.stats
        = updateStats s.stats st e
      ∧ (log_application_attempt s now jt c u st r e ff er false).1
        = (log_application_attempt s now jt c u st r e ff er true).1 := by
  refine ⟨rfl, ?_, ?_, ?_⟩
  · rw [log_attempt_fst]
  · rw [log_attempt_fst]
  · rw [log_attempt_fst, log_attempt_fst]

/-- C5: a call whose status is outside the three enum values is accepted —
confirmation result, record appended, `total_jobs_checked` incremented, and
`easy_apply_found` incremented iff the flag is set — but none of the
submitted/failed/skipped counters changes. -/
theorem c5_unknown_status_accepted_uncounted (s : SessionData) (now : Nat)
    (jt c u st r ff er : String) (e : Bool) (h1 : st ≠ "success")
    (h2 : st ≠ "failed") (h3 : st ≠ "skipped") :
    (log_application_attempt s now jt c u st r e ff er true).2.error = none
      ∧ (log_application_attempt s now jt c u st r e ff er true).2.extracted_content
        = "Application logged: " ++ st ++ " - " ++ jt ++ " at " ++ c
      ∧ (log_application_attempt s now jt c u st r e ff er true).1.applications
        = s.applications ++ [mkRecord jt c u now st r e ff er]
      ∧ (log_application_attempt s now jt c u st r e ff er true).1.stats.total_jobs_checked
        = s.stats.total_jobs_checked + 1
      ∧ (log_application_attempt s now jt c u st r e ff er true).1.stats.easy_apply_found
        = s.stats.easy_apply_found + (if e then 1 else 0)
      ∧ (log_application_attempt s now jt c u st r e ff er true).1.stats.applications_submitted
        = s.stats.applications_submitted
      ∧ (log_application_attempt s now jt c u st r e ff er true).1.stats.applications_failed
        = s.stats.applications_failed
      ∧ (log_application_attempt s now jt c u st r e ff er true).1.stats.jobs_skipped
        = s.stats.jobs_skipped := by
  refine ⟨rfl, rfl, ?_, ?_, ?_, ?_, ?_, ?_⟩
  · rw [log_attempt_fst]
  · rw [log_attempt_fst]
    exact updateStats_total s.stats st e
  · rw [log_attempt_fst]
    exact updateStats_easy s.stats st e
  · rw [log_attempt_fst, updateStats_submitted, if_neg h1]
    omega
  · rw [log_attempt_fst, updateStats_failed, if_neg h2]
    omega
  · rw [log_attempt_fst, updateStats_skipped, if_neg h3]
    omega

/-- C5 witness: the theorem evaluated at status `"pending"` on the empty
session. -/
theorem c5_unknown_status_accepted_uncounted_witness :
    (log_application_attempt (initSession 0) 7 "T" "C" "U" "pending" "" false
        "" "" true).2.error = none
      ∧ (log_application_attempt (initSession 0) 7 "T" "C" "U" "pending" ""
          false "" "" true).2.extracted_content
        = "Application logged: " ++ "pending" ++ " - " ++ "T" ++ " at " ++ "C"
      ∧ (log_application_attempt (initSession 0) 7 "T" "C" "U" "pending" ""
          false "" "" true).1.applications
        = (initSession 0).applications
            ++ [mkRecord "T" "C" "U" 7 "pending" "" false "" ""]
      ∧ (log_application_attempt (initSession 0) 7 "T" "C" "U" "pending" ""
          false "" "" true).1.stats.total_jobs_checked
        = (initSession 0).stats.total_jobs_checked + 1
      ∧ (log_application_attempt (initSession 0) 7 "T" "C" "U" "pending" ""
          false "" "" true).1.stats.easy_apply_found
        = (initSession 0).stats.easy_apply_found
            + (if (false : Bool) then 1 else 0)
      ∧ (log_application_attempt (initSession 0) 7 "T" "C" "U" "pending" ""
          false "" "" true).1.stats.applications_submitted
        = (initSession 0).stats.applications_submitted
      ∧ (log_application_attempt (initSession 0) 7 "T" "C" "U" "pending" ""
          false "" "" true).1.stats.applications_failed
        = (initSession 0).stats.applications_failed
      ∧ (log_application_attempt (initSession 0) 7 "T" "C" "U" "pending" ""
          false "" "" true).1.stats.jobs_skipped
        = (initSession 0).stats.jobs_skipped :=
  c5_unknown_status_accepted_uncounted (initSession 0) 7 "T" "C" "U"
    "pending" "" "" "" false (by decide) (by decide) (by decide)

/-- C8: arming sets the armed-since time to the current instant from any
prior state, resetting clears it from any prior state, and a check after a
reset reports that no timer is active. -/
theorem c8_arm_reset_state_machine (timer : Option Nat) (now : Nat) :
    (start_user_intervention_timer timer now).1 = some now
      ∧ (start_user_intervention_timer timer now).2.extracted_content
        = "Timer started - 2 minutes for user intervention"
      ∧ (reset_user_intervention_timer timer).1 = none
      ∧ (reset_user_intervention_timer timer).2.extracted_content
        = "Timer reset - intervention completed"
      ∧ check_user_intervention_timeout (reset_user_intervention_timer timer).1
          now
        = { extracted_content := "No intervention timer active",
            error := none } :=
  ⟨rfl, rfl, rfl, rfl, rfl⟩

/-- C9: the final report has shape {session_summary, end_time,
total_runtime}, goes to a fixed path distinct from the live snapshot, its
total runtime is now minus the session start rendered with sub-second
precision truncated, and it is also produced on a session with zero
recorded attempts. -/
theorem c9_final_report_shape (s : SessionData) (now : Nat) :
    (save_final_report s now).1 = final_report_path
      ∧ final_report_path ≠ applications_log_path
      ∧ (save_final_report s now).2.session_summary = s
      ∧ (save_final_report s now).2.end_time = now
      ∧ (save_final_report s now).2.total_runtime
        = formatDuration (now - s.start_time)
      ∧ (save_final_report s now).2.total_runtime
        = formatDuration (1000000 * ((now - s.start_time) / 1000000))
      ∧ (save_final_report (initSession s.start_time)
          now).2.session_summary.applications = [] := by
  refine ⟨rfl, by decide, rfl, rfl, rfl, ?_, rfl⟩
  exact formatDuration_congr _ _
    (by rw [Nat.mul_div_cancel_left _ (by norm_num : (0:Nat) < 1000000)])

/-- C3 counterexample: at elapsed exactly 300 s the 5-minute guard does not
report exceeded (the comparison is strict), and at elapsed 299 s it reports
1 second remaining, not 299; likewise the 2-minute guard at elapsed exactly
120 s still reports remaining seconds. -/
theorem c3_threshold_and_remaining_fail :
    (check_application_time_limit (some 0) 300000000).extracted_content
        ≠ "TIME_LIMIT_EXCEEDED"
      ∧ (check_application_time_limit (some 0) 300000000).extracted_content
        = "Time remaining: 0 seconds"
      ∧ (check_application_time_limit (some 0) 299000000).extracted_content
        ≠ "Time remaining: 299 seconds"
      ∧ (check_application_time_limit (some 0) 299000000).extracted_content
        = "Time remaining: 1 seconds"
      ∧ (check_user_intervention_timeout (some 0) 120000000).extracted_content
        ≠ "TIMEOUT_EXCEEDED"
      ∧ (check_user_intervention_timeout (some 0) 120000000).extracted_content
        = "Timer active - 0 seconds remaining" := by
  decide

/-- C3 (amended): an armed guard reports the exceeded signal exactly when
elapsed time is strictly greater than the threshold (2 minutes for the
intervention guard, 5 minutes for the per-application guard); when elapsed
is at most the threshold it reports threshold-minus-elapsed rounded to
whole seconds as remaining — so the 5-minute guard reports 1 second
remaining at elapsed 299 s, 0 at exactly 300 s, and TIME_LIMIT_EXCEEDED
from 300 s + 1 µs on. -/
theorem c3_guard_check_behavior (start now : Nat) :
    ((check_user_intervention_timeout (some start) now).extracted_content
        = "TIMEOUT_EXCEEDED" ↔ 120000000 < now - start)
      ∧ (now - start ≤ 120000000 →
          check_user_intervention_timeout (some start) now
            = { extracted_content := "Timer active - "
                  ++ toString (roundHalfEvenDiv (120000000 - (now - start))
                        1000000)
                  ++ " seconds remaining", error := none })
      ∧ ((check_application_time_limit (some start) now).extracted_content
          = "TIME_LIMIT_EXCEEDED" ↔ 300000000 < now - start)
      ∧ (now - start ≤ 300000000 →
          check_application_time_limit (some start) now
            = { extracted_content := "Time remaining: "
                  ++ toString (roundHalfEvenDiv (300000000 - (now - start))
                        1000000)
                  ++ " seconds", error := none }) := by
  refine ⟨?_, ?_, ?_, ?_⟩
  · rw [check_user_intervention_timeout]
    split_ifs with h
    · simp [h]
    · simp only [h, iff_false]
      exact timer_active_message_ne _
  · intro h
    rw [check_user_intervention_timeout, if_neg (by omega)]
  · rw [check_application_time_limit]
    split_ifs with h
    · simp [h]
    · simp only [h, iff_false]
      exact time_remaining_message_ne _
  · intro h
    rw [check_application_time_limit, if_neg (by omega)]

/-- C3 witness: the amended statement evaluated on the 5-minute guard at
elapsed 299 s. -/
theorem c3_guard_check_behavior_witness :
    check_application_time_limit (some 0) 299000000
      = { extracted_content := "Time remaining: "
            ++ toString (roundHalfEvenDiv (300000000 - (299000000 - 0))
                  1000000)
            ++ " seconds", error := none } :=
  (c3_guard_check_behavior 0 299000000).2.2.2 (by decide)

/-- C6: `get_session_stats` computes the success rate from
`applications_submitted` over `max(total_jobs_checked, 1)` and the
easy-apply rate from `easy_apply_found` over the same guarded divisor — a
divisor that is positive for every session state — and on a session with
zero recorded attempts both rate strings are "0.0%". The rate strings are
proved equal to the exact-rational one-decimal rendering of the claimed
quotient. -/
theorem c6_rates_guarded_divisor (s : SessionData) (now : Nat) :
    0 < max s.stats.total_jobs_checked 1
      ∧ (get_session_stats s now).1.success_rate
        = fmtPctQ ((s.stats.applications_submitted : ℚ)
            / ((max s.stats.total_jobs_checked 1 : ℕ) : ℚ) * 100)
      ∧ (get_session_stats s now).1.easy_apply_rate
        = fmtPctQ ((s.stats.easy_apply_found : ℚ)
            / ((max s.stats.total_jobs_checked 1 : ℕ) : ℚ) * 100)
      ∧ (get_session_stats (initSession 0) now).1.success_rate = "0.0%"
      ∧ (get_session_stats (initSession 0) now).1.easy_apply_rate
        = "0.0%" := by
  have hpos : 0 < max s.stats.total_jobs_checked 1 :=
    Nat.lt_of_lt_of_le Nat.zero_lt_one (le_max_right _ _)
  refine ⟨hpos, ?_, ?_, rfl, rfl⟩
  · exact fmtRate1_eq_fmtPctQ _ _ hpos
  · exact fmtRate1_eq_fmtPctQ _ _ hpos

/-- C7 counterexample: two `get_session_stats` calls on the same session
state with no intervening `log_application_attempt`, one second apart, give
different outputs — the session-duration field advanced from 0:00:00 to
0:00:01. -/
theorem c7_summary_differs_across_seconds :
    (get_session_stats (initSession 0) 0).1
      ≠ (get_session_stats (initSession 0) 1000000).1 := by
  decide

/-- C7 (amended): `get_session_stats` leaves the session state unchanged,
and two calls with no intervening `log_application_attempt` agree on the
statistics and on the two rate strings; the whole outputs are identical
exactly in case the two calls observe the same whole-second elapsed
duration, which a later call need not. -/
theorem c7_summary_stable_fields (s : SessionData) (t1 t2 : Nat) :
    (get_session_stats s t1).2 = s
      ∧ (get_session_stats s t1).1.statistics
        = (get_session_stats s t2).1.statistics
      ∧ (get_session_stats s t1).1.success_rate
        = (get_session_stats s t2).1.success_rate
      ∧ (get_session_stats s t1).1.easy_apply_rate
        = (get_session_stats s t2).1.easy_apply_rate
      ∧ ((t1 - s.start_time) / 1000000 = (t2 - s.start_time) / 1000000 →
          get_session_stats s t1 = get_session_stats s t2) := by
  refine ⟨rfl, rfl, rfl, rfl, fun h => ?_⟩
  simp only [get_session_stats, Prod.mk.injEq, SessionSummary.mk.injEq,
    and_true, true_and]
  exact formatDuration_congr _ _ h

/-- C7 witness: two calls within the same whole second give identical
output. -/
theorem c7_summary_stable_fields_witness :
    get_session_stats (initSession 0) 500000
      = get_session_stats (initSession 0) 999999 :=
  (c7_summary_stable_fields (initSession 0) 500000 999999).2.2.2.2 (by decide)

/-- C10: an empty `form_fields` (resp. `errors`) argument is stored as the
empty list; any non-empty argument is stored as its comma-split, which has
exactly one more entry than the argument has commas — so a single field
name containing a comma is stored as multiple entries. -/
theorem c10_comma_split_fields (jt c u st r : String) (n : Nat) (e : Bool)
    (ff er : String) (hff : ff ≠ "") (her : er ≠ "") :
    (mkRecord jt c u n st r e "" "").form_fields_filled = []
      ∧ (mkRecord jt c u n st r e "" "").errors = []
      ∧ (mkRecord jt c u n st r e ff er).form_fields_filled
        = (pySplitOn ',' ff.data).map List.asString
      ∧ (mkRecord jt c u n st r e ff er).errors
        = (pySplitOn ',' er.data).map List.asString
      ∧ ((mkRecord jt c u n st r e ff er).form_fields_filled).length
        = ff.data.count ',' + 1
      ∧ ((mkRecord jt c u n st r e ff er).errors).length
        = er.data.count ',' + 1
      ∧ (mkRecord jt c u n st r e "with,comma" "").form_fields_filled
        = ["with", "comma"] := by
  refine ⟨rfl, rfl, ?_, ?_, ?_, ?_, rfl⟩
  · rw [mkRecord]
    simp only [splitFields, if_neg hff]
  · rw [mkRecord]
    simp only [splitFields, if_neg her]
  · rw [mkRecord]
    simp only [splitFields, if_neg hff, List.length_map]
    exact pySplitOn_length ',' ff.data
  · rw [mkRecord]
    simp only [splitFields, if_neg her, List.length_map]
    exact pySplitOn_length ',' er.data

/-- C10 witness: the theorem evaluated at `form_fields := "a,b"` and
`errors := "x"`. -/
theorem c10_comma_split_fields_witness :
    (mkRecord "t" "c" "u" 0 "success" "" true "" "").form_fields_filled = []
      ∧ (mkRecord "t" "c" "u" 0 "success" "" true "" "").errors = []
      ∧ (mkRecord "t" "c" "u" 0 "success" "" true "a,b"
          "x").form_fields_filled
        = (pySplitOn ',' ("a,b" : String).data).map List.asString
      ∧ (mkRecord "t" "c" "u" 0 "success" "" true "a,b" "x").errors
        = (pySplitOn ',' ("x" : String).data).map List.asString
      ∧ ((mkRecord "t" "c" "u" 0 "success" "" true "a,b"
          "x").form_fields_filled).length
        = ("a,b" : String).data.count ',' + 1
      ∧ ((mkRecord "t" "c" "u" 0 "success" "" true "a,b" "x").errors).length
        = ("x" : String).data.count ',' + 1
      ∧ (mkRecord "t" "c" "u" 0 "success" "" true "with,comma"
          "").form_fields_filled
        = ["with", "comma"] :=
  c10_comma_split_fields "t" "c" "u" "success" "" 0 true "a,b" "x"
    (by decide) (by decide)
